import Mathlib

/-!
Verification of the response-simplification transform of the
mcp-google-travels server (`src/compare-responses.ts`).

The raw SerpAPI payloads are embedded as structures whose fields are all
optional, mirroring the untrusted provider JSON; numeric JSON fields are
embedded as `Int`, strings as `String`.  JavaScript's `a || b` defaulting
is truthiness-based (both `undefined` and `""` resp. `0` select the
default), which is captured by the helpers `strOr` and `numOr`.
`Date.now()` is made explicit as a `now : Nat` parameter threaded to the
hotel-id fallback.
-/

namespace McpGoogleTravels

/-! ## Raw flight data model -/

structure RawAirport where
  name : Option String
  id : Option String
  time : Option String
deriving DecidableEq

structure RawFlightLeg where
  departure_airport : Option RawAirport
  arrival_airport : Option RawAirport
  airline : Option String
  flight_number : Option String
  legroom : Option String
  travel_class : Option String
deriving DecidableEq

structure RawCarbonEmissions where
  difference_percent : Option Int
deriving DecidableEq

structure RawFlightOption where
  flights : Option (List RawFlightLeg)
  total_duration : Option Int
  price : Option Int
  type : Option String
  booking_token : Option String
  departure_token : Option String
  carbon_emissions : Option RawCarbonEmissions
deriving DecidableEq

structure RawSearchMetadata where
  google_flights_url : Option String
deriving DecidableEq

structure RawFlightSearchResult where
  best_flights : Option (List RawFlightOption)
  other_flights : Option (List RawFlightOption)
  search_parameters : Option String
  search_metadata : Option RawSearchMetadata
  price_insights : Option String
deriving DecidableEq

/-! ## JavaScript defaulting helpers -/

/-- JS `v || d` on an optional string: both `undefined` and `""` are falsy. -/
def strOr (v : Option String) (d : String) : String :=
  match v with
  | none => d
  | some s => if s = "" then d else s

/-- JS `v || d` on an optional number: both `undefined` and `0` are falsy. -/
def numOr (v : Option Int) (d : Int) : Int :=
  match v with
  | none => d
  | some n => if n = 0 then d else n

/-- The synthetic empty leg `{}` used as the `|| {}` fallback. -/
def emptyLeg : RawFlightLeg :=
  ⟨none, none, none, none, none, none⟩

/-- JS `option.flights?.length || 1` (an absent or empty legs array counts 1). -/
def flightsLengthOr1 (flights : Option (List RawFlightLeg)) : Int :=
  match flights with
  | none => 1
  | some l => if l.length = 0 then 1 else (l.length : Int)

/-- `formatDuration`: hours = `Math.floor(minutes/60)`, mins = JS `minutes % 60`
(truncated remainder), rendered `"<H>h <M>m"`. -/
def formatDuration (minutes : Int) : String :=
  let hours := Int.fdiv minutes 60
  let mins := Int.tmod minutes 60
  toString hours ++ "h " ++ toString mins ++ "m"

/-! ## Simplified flight output model -/

structure FlightEndpoint where
  airport : String
  code : String
  time : String
deriving DecidableEq

structure SimplifiedFlight where
  airline : String
  flightNumber : String
  departure : FlightEndpoint
  arrival : FlightEndpoint
  duration : String
  stops : Int
  price : Int
  currency : String
  bookingToken : Option String
  departureToken : Option String
  highlights : List String
deriving DecidableEq

/-- `buildFlightHighlights`: successive truthiness-guarded pushes onto an
accumulator, then `.slice(0, 3)`. -/
def buildFlightHighlights (option : RawFlightOption) : List String :=
  let highlights : List String := []
  let highlights :=
    match option.carbon_emissions.bind (fun ce => ce.difference_percent) with
    | some p => if p < 0 then highlights ++ [toString p.natAbs ++ "% less CO2"] else highlights
    | none => highlights
  let firstFlight := option.flights.bind List.head?
  let highlights :=
    match firstFlight.bind (fun f => f.legroom) with
    | some s => if s = "" then highlights else highlights ++ ["Legroom: " ++ s]
    | none => highlights
  let highlights :=
    match firstFlight.bind (fun f => f.travel_class) with
    | some s => if s = "" then highlights else highlights ++ [s]
    | none => highlights
  let highlights :=
    match option.type with
    | some s => if s = "" then highlights else highlights ++ [s]
    | none => highlights
  highlights.take 3

/-- `simplifyFlightOption`: first leg is `flights?.[0] || {}`, last leg is
`flights?.[flights.length - 1] || firstFlight`. -/
def simplifyFlightOption (option : RawFlightOption) : SimplifiedFlight :=
  let firstFlight : RawFlightLeg := (option.flights.bind List.head?).getD emptyLeg
  let lastFlight : RawFlightLeg := (option.flights.bind List.getLast?).getD firstFlight
  { airline := strOr firstFlight.airline "Unknown"
    flightNumber := strOr firstFlight.flight_number ""
    departure :=
      { airport := strOr (firstFlight.departure_airport.bind (fun a => a.name)) ""
        code := strOr (firstFlight.departure_airport.bind (fun a => a.id)) ""
        time := strOr (firstFlight.departure_airport.bind (fun a => a.time)) "" }
    arrival :=
      { airport := strOr (lastFlight.arrival_airport.bind (fun a => a.name)) ""
        code := strOr (lastFlight.arrival_airport.bind (fun a => a.id)) ""
        time := strOr (lastFlight.arrival_airport.bind (fun a => a.time)) "" }
    duration := formatDuration (numOr option.total_duration 0)
    stops := flightsLengthOr1 option.flights - 1
    price := numOr option.price 0
    currency := "USD"
    bookingToken := option.booking_token
    departureToken := option.departure_token
    highlights := buildFlightHighlights option }

/-! ## Price range -/

structure PriceRange where
  min : Int
  max : Int
deriving DecidableEq

def listMin (x : Int) (xs : List Int) : Int := xs.foldl min x

def listMax (x : Int) (xs : List Int) : Int := xs.foldl max x

/-- `allPrices.length > 0 ? {min: Math.min(...), max: Math.max(...)} : undefined`. -/
def priceRangeOf (prices : List Int) : Option PriceRange :=
  match prices with
  | [] => none
  | p :: ps => some { min := listMin p ps, max := listMax p ps }

/-! ## Flight response assembly -/

structure FlightSummary where
  searchParams : Option String
  totalResults : Nat
  priceRange : Option PriceRange
  googleFlightsUrl : Option String
deriving DecidableEq

structure FlightSearchResponse where
  summary : FlightSummary
  bestFlights : List SimplifiedFlight
  otherFlights : List SimplifiedFlight
  priceInsights : Option String
deriving DecidableEq

def simplifyFlightResponse (serpApiResponse : RawFlightSearchResult) : FlightSearchResponse :=
  let bestFlights := (serpApiResponse.best_flights.getD []).map simplifyFlightOption
  let otherFlights := (serpApiResponse.other_flights.getD []).map simplifyFlightOption
  let allPrices := (bestFlights ++ otherFlights).map (fun f => f.price)
  let priceRange := priceRangeOf allPrices
  { summary :=
      { searchParams := serpApiResponse.search_parameters
        totalResults := bestFlights.length + otherFlights.length
        priceRange := priceRange
        googleFlightsUrl := serpApiResponse.search_metadata.bind (fun m => m.google_flights_url) }
    bestFlights := bestFlights
    otherFlights := otherFlights.take 5
    priceInsights := serpApiResponse.price_insights }

/-! ## C1: the spec's literal round-trip scenario -/

/-- The literal raw flight option of the spec's round-trip scenario. -/
def c1RawOption : RawFlightOption :=
  { flights := some [
      { departure_airport := some { name := some "JFK Intl", id := some "JFK", time := some "11:00" }
        arrival_airport := none
        airline := some "Frontier"
        flight_number := some "F9 2503"
        legroom := some "28 in"
        travel_class := some "Economy" }]
    total_duration := some 385
    price := some 926
    type := some "Round trip"
    booking_token := some "TOK1"
    departure_token := none
    carbon_emissions := none }

/-- The simplified record the spec's scenario claims, with arrival fields
copied from the departure airport. -/
def c1SpecClaimed : SimplifiedFlight :=
  { airline := "Frontier"
    flightNumber := "F9 2503"
    departure := { airport := "JFK Intl", code := "JFK", time := "11:00" }
    arrival := { airport := "JFK Intl", code := "JFK", time := "11:00" }
    duration := "6h 25m"
    stops := 0
    price := 926
    currency := "USD"
    bookingToken := some "TOK1"
    departureToken := none
    highlights := ["Legroom: 28 in", "Economy", "Round trip"] }

/-- C1 counterexample: on the spec's literal raw option the projection does
not produce the record the spec states — the single leg has no
`arrival_airport`, so the arrival fields are all empty strings rather than
the departure airport's values. -/
theorem c1_counterexample :
    simplifyFlightOption c1RawOption ≠ c1SpecClaimed ∧
    (simplifyFlightOption c1RawOption).arrival =
      { airport := "", code := "", time := "" } := by
  constructor
  · decide
  · decide

/-- C1 (amended): on the spec's literal raw option the projection yields the
spec's record except that the arrival fields are all empty strings (the one
leg has no `arrival_airport`); duration "6h 25m", stops 0, currency "USD",
and highlights ["Legroom: 28 in", "Economy", "Round trip"] are as stated. -/
theorem c1_round_trip_projection :
    simplifyFlightOption c1RawOption =
      { airline := "Frontier"
        flightNumber := "F9 2503"
        departure := { airport := "JFK Intl", code := "JFK", time := "11:00" }
        arrival := { airport := "", code := "", time := "" }
        duration := "6h 25m"
        stops := 0
        price := 926
        currency := "USD"
        bookingToken := some "TOK1"
        departureToken := none
        highlights := ["Legroom: 28 in", "Economy", "Round trip"] } := by
  decide

/-! ## Raw hotel data model -/

structure RawRate where
  extracted_lowest : Option Int
deriving DecidableEq

structure RawHotelProperty where
  property_token : Option String
  name : Option String
  type : Option String
  overall_rating : Option Int
  reviews : Option Int
  rate_per_night : Option RawRate
  total_rate : Option RawRate
  neighborhood : Option String
  location : Option String
  link : Option String
  amenities : Option (List String)
  check_in_time : Option String
  check_out_time : Option String
deriving DecidableEq

structure RawHotelSearchResult where
  properties : Option (List RawHotelProperty)
  search_parameters : Option String
deriving DecidableEq

/-! ## Simplified hotel output model -/

structure SimplifiedHotel where
  hotelId : String
  name : String
  type : String
  rating : Option Int
  reviewCount : Option Int
  pricePerNight : Int
  totalPrice : Int
  currency : String
  location : String
  propertyToken : String
  bookingLink : Option String
  amenities : Option (List String)
  checkIn : Option String
  checkOut : Option String
deriving DecidableEq

/-- JS `name.replace(/\s+/g, '-')`: each maximal whitespace run becomes one
hyphen. -/
def collapseWhitespace (s : String) : String :=
  (s.toList.foldl
    (fun (acc : String × Bool) c =>
      if c.isWhitespace then
        if acc.2 then acc else (acc.1.push '-', true)
      else (acc.1.push c, false))
    ("", false)).1

/-- JS `s.substring(0, n)`: the first `n` characters of `s`. -/
def takeChars (n : Nat) (s : String) : String :=
  String.mk (s.toList.take n)

/-- `generateHotelId`: `` `HTL-${prop.name?.replace(/\s+/g,'-').substring(0,20)}-${Date.now()}` ``.
When `name` is absent the optional chain yields `undefined`, which the JS
template renders as the literal text "undefined".  `Date.now()` is the
explicit `now` parameter. -/
def generateHotelId (now : Nat) (prop : RawHotelProperty) : String :=
  let namePart :=
    match prop.name with
    | some n => takeChars 20 (collapseWhitespace n)
    | none => "undefined"
  "HTL-" ++ namePart ++ "-" ++ toString now

/-- `simplifyHotelProperty`, with `Date.now()` as the explicit `now`. -/
def simplifyHotelProperty (now : Nat) (prop : RawHotelProperty) : SimplifiedHotel :=
  { hotelId := strOr prop.property_token (generateHotelId now prop)
    name := strOr prop.name "Unknown Property"
    type := strOr prop.type "hotel"
    rating := prop.overall_rating
    reviewCount := prop.reviews
    pricePerNight := numOr (prop.rate_per_night.bind (fun r => r.extracted_lowest)) 0
    totalPrice := numOr (prop.total_rate.bind (fun r => r.extracted_lowest)) 0
    currency := "USD"
    location := strOr prop.neighborhood (strOr prop.location "")
    propertyToken := strOr prop.property_token ""
    bookingLink := prop.link
    amenities := prop.amenities.map (fun l => l.take 5)
    checkIn := prop.check_in_time
    checkOut := prop.check_out_time }

/-! ## Hotel response assembly -/

structure HotelSummary where
  searchParams : Option String
  totalResults : Nat
  priceRange : Option PriceRange
deriving DecidableEq

structure HotelSearchResponse where
  summary : HotelSummary
  properties : List SimplifiedHotel
deriving DecidableEq

/-- The strictly-positive nightly prices of all projected properties
(`properties.map(p => p.pricePerNight).filter(p => p > 0)`). -/
def posHotelPrices (now : Nat) (serpApiResponse : RawHotelSearchResult) : List Int :=
  (((serpApiResponse.properties.getD []).map (simplifyHotelProperty now)).map
      (fun p => p.pricePerNight)).filter (fun p => decide (0 < p))

def simplifyHotelResponse (now : Nat) (serpApiResponse : RawHotelSearchResult) :
    HotelSearchResponse :=
  let properties := (serpApiResponse.properties.getD []).map (simplifyHotelProperty now)
  let allPrices := (properties.map (fun p => p.pricePerNight)).filter (fun p => decide (0 < p))
  let priceRange := priceRangeOf allPrices
  { summary :=
      { searchParams := serpApiResponse.search_parameters
        totalResults := properties.length
        priceRange := priceRange }
    properties := properties.take 10 }

/-! ## Lemmas about the fold-based minimum and maximum -/

theorem listMin_cons (x a : Int) (t : List Int) : listMin x (a :: t) = listMin (min x a) t := rfl

theorem listMax_cons (x a : Int) (t : List Int) : listMax x (a :: t) = listMax (max x a) t := rfl

theorem listMin_le_self (x : Int) (xs : List Int) : listMin x xs ≤ x := by
  induction xs generalizing x with
  | nil => exact le_refl x
  | cons a t ih => exact le_trans (ih (min x a)) (min_le_left x a)

theorem listMin_le_of_mem {y : Int} (x : Int) {xs : List Int} (h : y ∈ xs) :
    listMin x xs ≤ y := by
  induction xs generalizing x with
  | nil => cases h
  | cons a t ih =>
      rcases List.mem_cons.mp h with rfl | hy
      · exact le_trans (listMin_le_self (min x y) t) (min_le_right x y)
      · exact ih (min x a) hy

theorem listMin_mem (x : Int) (xs : List Int) : listMin x xs = x ∨ listMin x xs ∈ xs := by
  induction xs generalizing x with
  | nil => exact Or.inl rfl
  | cons a t ih =>
      rcases ih (min x a) with h | h
      · rcases min_choice x a with hm | hm
        · exact Or.inl (by rw [listMin_cons, h, hm])
        · exact Or.inr (by rw [listMin_cons, h, hm]; exact List.mem_cons_self a t)
      · exact Or.inr (List.mem_cons_of_mem a h)

theorem le_listMax_self (x : Int) (xs : List Int) : x ≤ listMax x xs := by
  induction xs generalizing x with
  | nil => exact le_refl x
  | cons a t ih => exact le_trans (le_max_left x a) (ih (max x a))

theorem le_listMax_of_mem {y : Int} (x : Int) {xs : List Int} (h : y ∈ xs) :
    y ≤ listMax x xs := by
  induction xs generalizing x with
  | nil => cases h
  | cons a t ih =>
      rcases List.mem_cons.mp h with rfl | hy
      · exact le_trans (le_max_right x y) (le_listMax_self (max x y) t)
      · exact ih (max x a) hy

theorem listMax_mem (x : Int) (xs : List Int) : listMax x xs = x ∨ listMax x xs ∈ xs := by
  induction xs generalizing x with
  | nil => exact Or.inl rfl
  | cons a t ih =>
      rcases ih (max x a) with h | h
      · rcases max_choice x a with hm | hm
        · exact Or.inl (by rw [listMax_cons, h, hm])
        · exact Or.inr (by rw [listMax_cons, h, hm]; exact List.mem_cons_self a t)
      · exact Or.inr (List.mem_cons_of_mem a h)

theorem priceRangeOf_eq_none_iff (prices : List Int) :
    priceRangeOf prices = none ↔ prices = [] := by
  cases prices <;> simp [priceRangeOf]

/-- When the price list is nonempty, the computed range's `min` and `max` are
attained in the list and bound it. -/
theorem priceRangeOf_some {prices : List Int} {pr : PriceRange}
    (h : priceRangeOf prices = some pr) :
    pr.min ∈ prices ∧ pr.max ∈ prices ∧ ∀ y ∈ prices, pr.min ≤ y ∧ y ≤ pr.max := by
  cases prices with
  | nil => simp [priceRangeOf] at h
  | cons p ps =>
      simp only [priceRangeOf, Option.some_inj] at h
      subst h
      refine ⟨?_, ?_, ?_⟩
      · rcases listMin_mem p ps with h | h
        · rw [h]; exact List.mem_cons_self p ps
        · exact List.mem_cons_of_mem p h
      · rcases listMax_mem p ps with h | h
        · rw [h]; exact List.mem_cons_self p ps
        · exact List.mem_cons_of_mem p h
      · intro y hy
        rcases List.mem_cons.mp hy with h | hy
        · rw [h]
          exact ⟨listMin_le_self p ps, le_listMax_self p ps⟩
        · exact ⟨listMin_le_of_mem p hy, le_listMax_of_mem p hy⟩

/-! ## Claim theorems -/

/-- C2: for every raw flight search result with `N` best and `M` other
options (absent lists empty), `summary.totalResults = N + M` counted before
truncation, `bestFlights` is all `N` projected best options in order with no
cap, and `otherFlights` is the first `min(M, 5)` projected other options in
order. -/
theorem c2_flight_response_counts (r : RawFlightSearchResult) :
    (simplifyFlightResponse r).summary.totalResults =
      (r.best_flights.getD []).length + (r.other_flights.getD []).length ∧
    (simplifyFlightResponse r).bestFlights =
      (r.best_flights.getD []).map simplifyFlightOption ∧
    (simplifyFlightResponse r).otherFlights =
      ((r.other_flights.getD []).map simplifyFlightOption).take 5 := by
  refine ⟨?_, rfl, rfl⟩
  simp [simplifyFlightResponse]

/-- C3: for every raw hotel search result with `P` properties (absent
empty), `summary.totalResults = P`, the emitted `properties` are the first
`min(P, 10)` projected properties in order, and the `priceRange` is computed
from the strictly-positive nightly prices of all `P` projected properties,
including those beyond index 10 that are not emitted. -/
theorem c3_hotel_response_counts (now : Nat) (r : RawHotelSearchResult) :
    (simplifyHotelResponse now r).summary.totalResults = (r.properties.getD []).length ∧
    (simplifyHotelResponse now r).properties =
      ((r.properties.getD []).map (simplifyHotelProperty now)).take 10 ∧
    (simplifyHotelResponse now r).summary.priceRange = priceRangeOf (posHotelPrices now r) := by
  refine ⟨?_, rfl, rfl⟩
  simp [simplifyHotelResponse]

/-- A raw hotel property with a name but no `property_token`, as a provider
may deliver it. -/
def c4TokenlessProp : RawHotelProperty :=
  { property_token := none
    name := some "Grand Hotel"
    type := none
    overall_rating := none
    reviews := none
    rate_per_night := none
    total_rate := none
    neighborhood := none
    location := none
    link := none
    amenities := none
    check_in_time := none
    check_out_time := none }

def c4TokenlessResult : RawHotelSearchResult :=
  { properties := some [c4TokenlessProp], search_parameters := none }

/-- C4 counterexample: `simplifyHotelResponse` is not a pure function of its
input — on the same raw payload (one property without a `property_token`) it
returns different outputs at wall-clock times 0 and 1, because
`generateHotelId` embeds `Date.now()` in the synthesized `hotelId`. -/
theorem c4_counterexample :
    simplifyHotelResponse 0 c4TokenlessResult ≠ simplifyHotelResponse 1 c4TokenlessResult := by
  decide

/-- C4 (amended): `simplifyFlightResponse` is a pure function of its input
(in this embedding it takes no time parameter at all), and
`simplifyHotelResponse` depends on the current time only through the
synthesized `hotelId` of properties lacking a truthy `property_token`:
whenever every raw property carries a non-empty `property_token`, its output
is the same at any two times. -/
theorem c4_purity_amended (t₁ t₂ : Nat) (h : RawHotelSearchResult)
    (htok : ∀ p ∈ h.properties.getD [], strOr p.property_token "" ≠ "") :
    simplifyHotelResponse t₁ h = simplifyHotelResponse t₂ h := by
  have hmap : (h.properties.getD []).map (simplifyHotelProperty t₁) =
      (h.properties.getD []).map (simplifyHotelProperty t₂) := by
    apply List.map_congr_left
    intro p hp
    have hp' := htok p hp
    cases htk : p.property_token with
    | none => rw [htk] at hp'; simp [strOr] at hp'
    | some s =>
        rw [htk] at hp'
        have hs : s ≠ "" := by
          intro hcon
          rw [hcon] at hp'
          simp [strOr] at hp'
        simp [simplifyHotelProperty, strOr, htk, hs]
  simp only [simplifyHotelResponse, hmap]

def c4TokenedProp : RawHotelProperty :=
  { property_token := some "abc123xyz987"
    name := some "Grand Hotel"
    type := none
    overall_rating := none
    reviews := none
    rate_per_night := none
    total_rate := none
    neighborhood := none
    location := none
    link := none
    amenities := none
    check_in_time := none
    check_out_time := none }

def c4TokenedResult : RawHotelSearchResult :=
  { properties := some [c4TokenedProp], search_parameters := none }

/-- C4 witness: on a concrete payload whose only property carries a
non-empty token, the hotel simplification agrees at times 0 and 1. -/
theorem c4_witness :
    (∀ p ∈ c4TokenedResult.properties.getD [], strOr p.property_token "" ≠ "") ∧
    simplifyHotelResponse 0 c4TokenedResult = simplifyHotelResponse 1 c4TokenedResult :=
  ⟨by decide, c4_purity_amended 0 1 c4TokenedResult (by decide)⟩

/-- C5: a raw hotel property whose `property_token` is absent or empty is
projected to a record whose `hotelId` is the synthesized id — a non-empty
string prefixed `"HTL-"` and built from the name and the current time —
while `propertyToken` is the empty string, never backfilled from the
synthesized id. -/
theorem c5_missing_token (now : Nat) (prop : RawHotelProperty)
    (h : prop.property_token = none ∨ prop.property_token = some "") :
    (simplifyHotelProperty now prop).hotelId = generateHotelId now prop ∧
    (∃ rest, (simplifyHotelProperty now prop).hotelId = "HTL-" ++ rest) ∧
    (simplifyHotelProperty now prop).hotelId ≠ "" ∧
    (simplifyHotelProperty now prop).propertyToken = "" := by
  have hid : (simplifyHotelProperty now prop).hotelId = generateHotelId now prop := by
    rcases h with h | h <;> simp [simplifyHotelProperty, strOr, h]
  have htok : (simplifyHotelProperty now prop).propertyToken = "" := by
    rcases h with h | h <;> simp [simplifyHotelProperty, strOr, h]
  have hrest : ∃ rest, (simplifyHotelProperty now prop).hotelId = "HTL-" ++ rest := by
    refine ⟨(match prop.name with
      | some n => takeChars 20 (collapseWhitespace n)
      | none => "undefined") ++ ("-" ++ toString now), ?_⟩
    rw [hid]
    simp only [generateHotelId, String.append_assoc]
  refine ⟨hid, hrest, ?_, htok⟩
  obtain ⟨rest, hr⟩ := hrest
  intro hcon
  rw [hcon] at hr
  have := congrArg String.length hr
  simp [String.length_append] at this
  have h4 : "HTL-".length = 4 := by decide
  omega

def c5Prop : RawHotelProperty :=
  { property_token := none
    name := none
    type := none
    overall_rating := none
    reviews := none
    rate_per_night := none
    total_rate := none
    neighborhood := none
    location := none
    link := none
    amenities := none
    check_in_time := none
    check_out_time := none }

/-- C5 witness: the all-absent property at time 7 gets a non-empty
`"HTL-"`-prefixed synthesized `hotelId` and an empty `propertyToken`. -/
theorem c5_witness :
    (c5Prop.property_token = none ∨ c5Prop.property_token = some "") ∧
    ((simplifyHotelProperty 7 c5Prop).hotelId = generateHotelId 7 c5Prop ∧
     (∃ rest, (simplifyHotelProperty 7 c5Prop).hotelId = "HTL-" ++ rest) ∧
     (simplifyHotelProperty 7 c5Prop).hotelId ≠ "" ∧
     (simplifyHotelProperty 7 c5Prop).propertyToken = "") :=
  ⟨Or.inl rfl, c5_missing_token 7 c5Prop (Or.inl rfl)⟩

/-- The price list of a nonempty flight result always yields a range, and if
`0` occurs among nonnegative prices the range's `min` is `0`. -/
theorem priceRangeOf_min_zero {l : List Int} (h0 : (0 : Int) ∈ l)
    (hnn : ∀ y ∈ l, 0 ≤ y) :
    ∃ mx, priceRangeOf l = some { min := 0, max := mx } := by
  cases l with
  | nil => cases h0
  | cons p ps =>
      refine ⟨listMax p ps, ?_⟩
      have hle : listMin p ps ≤ 0 := by
        rcases List.mem_cons.mp h0 with h | h
        · rw [← h]
          exact listMin_le_self 0 ps
        · exact listMin_le_of_mem p h
      have hge : 0 ≤ listMin p ps := by
        rcases listMin_mem p ps with h | h
        · rw [h]; exact hnn p (List.mem_cons_self p ps)
        · exact hnn _ (List.mem_cons_of_mem p h)
      have hmin : listMin p ps = 0 := le_antisymm hle hge
      simp only [priceRangeOf, hmin]

/-- C6: `priceRange` is absent exactly when its price set is empty — for
flights, when the concatenation of projected best+other options is empty;
for hotels, when no projected property has `pricePerNight > 0` — and when
present for hotels its `min`/`max` are attained in, and bound, the strictly
positive nightly prices only. -/
theorem c6_price_range_presence (r : RawFlightSearchResult)
    (h : RawHotelSearchResult) (now : Nat) :
    ((simplifyFlightResponse r).summary.priceRange = none ↔
      (r.best_flights.getD []).map simplifyFlightOption ++
        (r.other_flights.getD []).map simplifyFlightOption = []) ∧
    ((simplifyHotelResponse now h).summary.priceRange = none ↔
      ∀ p ∈ (h.properties.getD []).map (simplifyHotelProperty now),
        ¬ (0 < p.pricePerNight)) ∧
    (∀ pr, (simplifyHotelResponse now h).summary.priceRange = some pr →
      pr.min ∈ posHotelPrices now h ∧ pr.max ∈ posHotelPrices now h ∧
      ∀ y ∈ posHotelPrices now h, pr.min ≤ y ∧ y ≤ pr.max) := by
  have hflight : (simplifyFlightResponse r).summary.priceRange =
      priceRangeOf (((r.best_flights.getD []).map simplifyFlightOption ++
        (r.other_flights.getD []).map simplifyFlightOption).map (fun f => f.price)) := rfl
  have hhotel : (simplifyHotelResponse now h).summary.priceRange =
      priceRangeOf (posHotelPrices now h) := rfl
  refine ⟨?_, ?_, ?_⟩
  · rw [hflight, priceRangeOf_eq_none_iff, List.map_eq_nil_iff]
  · rw [hhotel, priceRangeOf_eq_none_iff, posHotelPrices, List.filter_eq_nil_iff]
    constructor
    · intro hall p hp
      have := hall p.pricePerNight (List.mem_map.mpr ⟨p, hp, rfl⟩)
      simpa using this
    · intro hall y hy
      obtain ⟨p, hp, rfl⟩ := List.mem_map.mp hy
      simpa using hall p hp
  · intro pr hpr
    rw [hhotel] at hpr
    exact priceRangeOf_some hpr

def c6FlightExample : RawFlightSearchResult :=
  { best_flights := none, other_flights := none, search_parameters := none
    search_metadata := none, price_insights := none }

def c6HotelProp (tok : String) (rate : Int) : RawHotelProperty :=
  { property_token := some tok
    name := some "H"
    type := none
    overall_rating := none
    reviews := none
    rate_per_night := some { extracted_lowest := some rate }
    total_rate := none
    neighborhood := none
    location := none
    link := none
    amenities := none
    check_in_time := none
    check_out_time := none }

def c6HotelExample : RawHotelSearchResult :=
  { properties := some [c6HotelProp "TOKA" 100, c6HotelProp "TOKB" 300]
    search_parameters := none }

/-- C6 witness: on a concrete hotel payload with nightly prices 100 and 300
the computed range `{min := 100, max := 300}` is attained in and bounds the
positive price set. -/
theorem c6_witness :
    (100 : Int) ∈ posHotelPrices 0 c6HotelExample ∧
    (300 : Int) ∈ posHotelPrices 0 c6HotelExample ∧
    ∀ y ∈ posHotelPrices 0 c6HotelExample, (100 : Int) ≤ y ∧ y ≤ (300 : Int) := by
  have h := (c6_price_range_presence c6FlightExample c6HotelExample 0).2.2
    { min := 100, max := 300 } (by decide)
  exact h

/-- Modelled on the claim's wording: the full ordered list of qualifying
highlight candidates in the fixed priority order — CO2 saving (present and
negative difference percent), the first leg's legroom, the first leg's
travel class verbatim, the option's trip-type label verbatim.  A field
holding the empty string is falsy in JS and counts as absent. -/
def specFlightHighlights (option : RawFlightOption) : List String :=
  (match option.carbon_emissions.bind (fun ce => ce.difference_percent) with
   | some p => if p < 0 then [toString p.natAbs ++ "% less CO2"] else []
   | none => []) ++
  ((match (option.flights.bind List.head?).bind (fun f => f.legroom) with
    | some s => if s = "" then [] else ["Legroom: " ++ s]
    | none => []) ++
   ((match (option.flights.bind List.head?).bind (fun f => f.travel_class) with
     | some s => if s = "" then [] else [s]
     | none => []) ++
    (match option.type with
     | some s => if s = "" then [] else [s]
     | none => [])))

/-- C7: a projected flight's highlights are exactly the first 3 qualifying
items in the fixed priority order CO2 → legroom → travel class → trip type,
and never more than 3. -/
theorem c7_highlights_order (option : RawFlightOption) :
    (simplifyFlightOption option).highlights = (specFlightHighlights option).take 3 ∧
    (simplifyFlightOption option).highlights.length ≤ 3 := by
  have he : buildFlightHighlights option = (specFlightHighlights option).take 3 := by
    simp only [buildFlightHighlights, specFlightHighlights]
    rcases option.carbon_emissions.bind (fun ce => ce.difference_percent) with _ | p <;>
      rcases (option.flights.bind List.head?).bind (fun f => f.legroom) with _ | s₁ <;>
        rcases (option.flights.bind List.head?).bind (fun f => f.travel_class) with _ | s₂ <;>
          rcases option.type with _ | s₃
    all_goals try simp
    all_goals split_ifs <;> rfl
  have hb : (simplifyFlightOption option).highlights = buildFlightHighlights option := rfl
  refine ⟨by rw [hb, he], ?_⟩
  rw [hb, he, List.length_take]
  exact Nat.min_le_left _ _

/-- C8: a raw flight option whose legs sequence is absent or empty projects
to 0 stops (never negative) and all-empty-string departure and arrival
fields; the embedding is a total function, so no error is raised. -/
theorem c8_empty_legs (option : RawFlightOption)
    (h : option.flights = none ∨ option.flights = some []) :
    (simplifyFlightOption option).stops = 0 ∧
    (simplifyFlightOption option).departure = { airport := "", code := "", time := "" } ∧
    (simplifyFlightOption option).arrival = { airport := "", code := "", time := "" } := by
  rcases h with h | h <;>
    exact ⟨by simp [simplifyFlightOption, flightsLengthOr1, h],
      by simp [simplifyFlightOption, emptyLeg, strOr, h],
      by simp [simplifyFlightOption, emptyLeg, strOr, h]⟩

def c8Example : RawFlightOption :=
  { flights := some []
    total_duration := some 385
    price := some 926
    type := some "Round trip"
    booking_token := none
    departure_token := none
    carbon_emissions := none }

/-- C8 witness: a concrete option with an empty legs array yields 0 stops
and empty-string endpoints. -/
theorem c8_witness :
    (c8Example.flights = none ∨ c8Example.flights = some []) ∧
    ((simplifyFlightOption c8Example).stops = 0 ∧
     (simplifyFlightOption c8Example).departure = { airport := "", code := "", time := "" } ∧
     (simplifyFlightOption c8Example).arrival = { airport := "", code := "", time := "" }) :=
  ⟨Or.inr rfl, c8_empty_legs c8Example (Or.inr rfl)⟩

/-- C10: when the combined raw best+other list is nonempty, some option has
no price field, and no present price is negative, the flight `priceRange` is
present with `min = 0`: the missing price defaults to 0 and participates in
the min/max computation (flights do not filter zero prices out). -/
theorem c10_missing_price_min_zero (r : RawFlightSearchResult)
    (_hne : (r.best_flights.getD []) ++ (r.other_flights.getD []) ≠ [])
    (hmiss : ∃ o ∈ (r.best_flights.getD []) ++ (r.other_flights.getD []), o.price = none)
    (hnneg : ∀ o ∈ (r.best_flights.getD []) ++ (r.other_flights.getD []),
      0 ≤ o.price.getD 0) :
    ∃ mx, (simplifyFlightResponse r).summary.priceRange = some { min := 0, max := mx } := by
  have hpr : (simplifyFlightResponse r).summary.priceRange =
      priceRangeOf (((r.best_flights.getD []) ++ (r.other_flights.getD [])).map
        (fun o => (simplifyFlightOption o).price)) := by
    show priceRangeOf _ = _
    rw [← List.map_append, List.map_map]
    rfl
  rw [hpr]
  apply priceRangeOf_min_zero
  · obtain ⟨o, ho, hop⟩ := hmiss
    refine List.mem_map.mpr ⟨o, ho, ?_⟩
    show numOr o.price 0 = 0
    rw [hop]
    rfl
  · intro y hy
    obtain ⟨o, ho, rfl⟩ := List.mem_map.mp hy
    show (0 : Int) ≤ numOr o.price 0
    have := hnneg o ho
    cases hop : o.price with
    | none => simp [numOr]
    | some p =>
        rw [hop] at this
        simp only [Option.getD_some] at this
        by_cases hp : p = 0 <;> simp [numOr, hp]
        exact this

def c10Priceless : RawFlightOption :=
  { flights := none, total_duration := none, price := none, type := none
    booking_token := none, departure_token := none, carbon_emissions := none }

def c10Priced : RawFlightOption :=
  { flights := none, total_duration := none, price := some 500, type := none
    booking_token := none, departure_token := none, carbon_emissions := none }

def c10Example : RawFlightSearchResult :=
  { best_flights := some [c10Priceless]
    other_flights := some [c10Priced]
    search_parameters := none
    search_metadata := none
    price_insights := none }

/-- C10 witness: one priceless and one 500-priced option give a present
range with `min = 0`. -/
theorem c10_witness :
    ((c10Example.best_flights.getD []) ++ (c10Example.other_flights.getD []) ≠ [] ∧
     (∃ o ∈ (c10Example.best_flights.getD []) ++ (c10Example.other_flights.getD []),
        o.price = none) ∧
     (∀ o ∈ (c10Example.best_flights.getD []) ++ (c10Example.other_flights.getD []),
        0 ≤ o.price.getD 0)) ∧
    ∃ mx, (simplifyFlightResponse c10Example).summary.priceRange = some { min := 0, max := mx } :=
  ⟨⟨by decide, by decide, by decide⟩,
   c10_missing_price_min_zero c10Example (by decide) (by decide) (by decide)⟩

/-- C9: the transforms are total on arbitrary raw payloads — every field
access in this embedding mirrors the code's optional-chaining and `||`
defaulting, so both transforms are total functions that never raise — and
on payloads whose optional fields are all absent they return exactly the
stated defaults, for any values of the remaining passthrough fields. -/
theorem c9_totality_defaults :
    (∀ sp sm pi,
      simplifyFlightResponse
          { best_flights := none, other_flights := none, search_parameters := sp
            search_metadata := sm, price_insights := pi } =
        { summary :=
            { searchParams := sp, totalResults := 0, priceRange := none
              googleFlightsUrl := sm.bind (fun m => m.google_flights_url) }
          bestFlights := [], otherFlights := [], priceInsights := pi }) ∧
    (∀ now sp,
      simplifyHotelResponse now { properties := none, search_parameters := sp } =
        { summary := { searchParams := sp, totalResults := 0, priceRange := none }
          properties := [] }) ∧
    (simplifyFlightOption
        { flights := none, total_duration := none, price := none, type := none
          booking_token := none, departure_token := none, carbon_emissions := none } =
      { airline := "Unknown", flightNumber := ""
        departure := { airport := "", code := "", time := "" }
        arrival := { airport := "", code := "", time := "" }
        duration := "0h 0m", stops := 0, price := 0, currency := "USD"
        bookingToken := none, departureToken := none, highlights := [] }) ∧
    (∀ now,
      simplifyHotelProperty now
          { property_token := none, name := none, type := none, overall_rating := none
            reviews := none, rate_per_night := none, total_rate := none
            neighborhood := none, location := none, link := none, amenities := none
            check_in_time := none, check_out_time := none } =
        { hotelId := "HTL-undefined-" ++ toString now, name := "Unknown Property"
          type := "hotel", rating := none, reviewCount := none, pricePerNight := 0
          totalPrice := 0, currency := "USD", location := "", propertyToken := ""
          bookingLink := none, amenities := none, checkIn := none, checkOut := none }) := by
  refine ⟨fun sp sm pi => rfl, fun now sp => rfl, by decide, fun now => ?_⟩
  have hlit : ("HTL-" ++ "undefined" ++ "-" : String) = "HTL-undefined-" := rfl
  simp only [simplifyHotelProperty, generateHotelId, strOr, numOr, Option.bind_none,
    Option.map_none]
  rw [← hlit]
  rfl

end McpGoogleTravels
